import Mathlib

/-!
Verification development for the FitSync user-service credential and
session-token lifecycle subsystem.

The definitions below are a shallow embedding of the JavaScript source:

* `src/utils/jwt.js` — token minting/verification (modelled symbolically:
  a signed token is a record of its payload, signing secret, issuer,
  audience and expiry; verification succeeds exactly when the secret,
  issuer and audience match and the token is not yet expired), the
  Redis-backed refresh-token store and the user projection cache.
  The Redis store is modelled as a flat association list from string keys
  to values; values denote the stored strings (a raw token string or a
  JSON-serialised user record).  Wall-clock TTL expiry of Redis keys is
  not modelled: the `ttl` arguments are kept in the signatures but a key
  persists until deleted.
* `src/controllers/authController.js` — the register / login / refresh
  flows, with explicit state passing for the database and the cache.
  Each awaited side-effect query that the source wraps in a try/catch is
  given a boolean outcome knob (`IoOutcome`); when a call fails the flow
  lands in the catch-all handler exactly as in the source.
* `src/controllers/userController.js` — `deleteUser` (soft delete).

`bcrypt.hash` / `bcrypt.compare` and the SHA-256 token fingerprint are
kept abstract: the flows are parameterised over them, since only their
determinism is relied upon by the source.
-/

namespace FitSync

/-! ### Token model (src/utils/jwt.js) -/

/-- JWT payload as assembled by the source.  A JavaScript object field that
is absent reads as `undefined`; absent fields are modelled as `none`. -/
structure Claims where
  id : String
  email : Option String
  role : Option String
  gym_id : Option String
  type : Option String
deriving DecidableEq

/-- A signed JWT, modelled symbolically: the opaque token string is
identified with the data that determines it.  `jwt.verify` succeeds
exactly when the verifying secret equals the signing secret and the
issuer/audience/expiry checks pass. -/
structure SignedToken where
  payload : Claims
  secret : String
  issuer : String
  audience : String
  iat : Nat
  exp : Nat
deriving DecidableEq

/-- Fallback access secret: `process.env.JWT_SECRET || 'your-super-secret-jwt-key'`. -/
def defaultJwtSecret : String := "your-super-secret-jwt-key"

/-- Fallback refresh secret: `process.env.JWT_REFRESH_SECRET || 'your-super-secret-refresh-key'`. -/
def defaultJwtRefreshSecret : String := "your-super-secret-refresh-key"

/-- The environment variables consulted by src/utils/jwt.js. -/
structure Env where
  JWT_SECRET : Option String
  JWT_REFRESH_SECRET : Option String
deriving DecidableEq

/-- `const JWT_SECRET = process.env.JWT_SECRET || default`. -/
def Env.jwtSecret (env : Env) : String := env.JWT_SECRET.getD defaultJwtSecret

/-- `const JWT_REFRESH_SECRET = process.env.JWT_REFRESH_SECRET || default`. -/
def Env.jwtRefreshSecret (env : Env) : String :=
  env.JWT_REFRESH_SECRET.getD defaultJwtRefreshSecret

/-- JWT_EXPIRY default '15m', in seconds. -/
def jwtExpirySeconds : Nat := 900

/-- JWT_REFRESH_EXPIRY default '7d', in seconds. -/
def jwtRefreshExpirySeconds : Nat := 604800

def issuerName : String := "fitsync-user-service"

def audienceName : String := "fitsync-api"

/-! ### User rows (durable store) -/

/-- A row of the `users` table, restricted to the columns the embedded
flows read. -/
structure User where
  id : String
  email : String
  password_hash : String
  role : String
  first_name : String
  last_name : String
  phone : Option String
  gym_id : Option String
  is_active : Bool
  last_login : Option Nat
deriving DecidableEq

/-- `generateAccessToken(user)`: payload {id, email, role, gym_id},
signed with the access secret, expiresIn 15m. -/
def generateAccessToken (env : Env) (now : Nat) (user : User) : SignedToken :=
  { payload := { id := user.id, email := some user.email, role := some user.role,
                 gym_id := user.gym_id, type := none },
    secret := env.jwtSecret,
    issuer := issuerName,
    audience := audienceName,
    iat := now,
    exp := now + jwtExpirySeconds }

/-- `generateRefreshToken(user)`: payload {id, type: 'refresh'} only,
signed with the refresh secret, expiresIn 7d. -/
def generateRefreshToken (env : Env) (now : Nat) (user : User) : SignedToken :=
  { payload := { id := user.id, email := none, role := none,
                 gym_id := none, type := some "refresh" },
    secret := env.jwtRefreshSecret,
    issuer := issuerName,
    audience := audienceName,
    iat := now,
    exp := now + jwtRefreshExpirySeconds }

/-- `jwt.verify(token, secret, {issuer, audience})`: returns the payload
when the signature (modelled as secret equality), issuer, audience and
expiry checks all pass, otherwise fails. -/
def verifyToken (secret : String) (now : Nat) (t : SignedToken) : Option Claims :=
  if t.secret = secret ∧ t.issuer = issuerName ∧ t.audience = audienceName ∧ now < t.exp
  then some t.payload else none

/-- `verifyAccessToken(token)`. -/
def verifyAccessToken (env : Env) (now : Nat) (t : SignedToken) : Option Claims :=
  verifyToken env.jwtSecret now t

/-- `verifyRefreshToken(token)`. -/
def verifyRefreshToken (env : Env) (now : Nat) (t : SignedToken) : Option Claims :=
  verifyToken env.jwtRefreshSecret now t

/-! ### Redis model -/

/-- The denormalised user record that `login` serialises into the user
projection cache (`JSON.stringify(userData)`). -/
structure CachedUser where
  id : String
  email : String
  role : String
  first_name : String
  last_name : String
  gym_id : Option String
deriving DecidableEq

/-- Denotation of a string stored as a Redis value: either a raw token
string or a JSON-serialised user record.  Serialisation is injective, so
string equality on the wire coincides with equality of denotations. -/
inductive RVal where
  | tok (t : SignedToken)
  | json (u : CachedUser)
deriving DecidableEq

/-- The Redis keyspace: a flat finite map from string keys to values,
as an association list (later bindings shadow nothing: `rset` erases the
old binding). -/
abbrev RStore := List (String × RVal)

/-- `redisClient.get(key)`: first binding for the key, if any. -/
def rget : RStore → String → Option RVal
  | [], _ => none
  | kv :: t, k => if kv.1 = k then some kv.2 else rget t k

/-- `redisClient.del(key)` (single key): drop every binding for the key. -/
def rdel : RStore → String → RStore
  | [], _ => []
  | kv :: t, k => if kv.1 = k then rdel t k else kv :: rdel t k

/-- `redisClient.setEx(key, ttl, value)`: overwrite-on-write.  The TTL is
wall-clock behaviour and is not modelled. -/
def rset (s : RStore) (k : String) (v : RVal) : RStore :=
  (k, v) :: rdel s k

/-- A glob pattern of the shape `pre*` matches exactly the keys that
start with `pre`. -/
def strStartsWith (p k : String) : Bool := p.data.isPrefixOf k.data

/-- `redisClient.keys(pattern)` for a trailing-star pattern. -/
def rkeys (s : RStore) (p : String) : List String :=
  (s.map (fun kv => kv.1)).filter (fun k => strStartsWith p k)

/-- `redisClient.del(keys)` (batch delete): drop every binding whose key
occurs in the list. -/
def rdelMany : RStore → List String → RStore
  | [], _ => []
  | kv :: t, ks => if kv.1 ∈ ks then rdelMany t ks else kv :: rdelMany t ks

/-! ### Refresh-token store and user cache (src/utils/jwt.js) -/

/-- `` `refresh_token:${userId}:${generateTokenHash(token)}` ``.
`fp` abstracts `generateTokenHash` (SHA-256 hex of the token string);
only its determinism is used. -/
def refreshTokenKey (fp : SignedToken → String) (userId : String) (token : SignedToken) :
    String :=
  "refresh_token:" ++ userId ++ ":" ++ fp token

/-- The key range scanned by `revokeAllUserTokens`:
`` `refresh_token:${userId}:` `` (the glob pattern minus its trailing star). -/
def refreshKeySpace (userId : String) : String :=
  "refresh_token:" ++ userId ++ ":"

/-- `storeRefreshToken(userId, token, expiresInSeconds)`. -/
def storeRefreshToken (fp : SignedToken → String) (userId : String) (token : SignedToken)
    (_expiresInSeconds : Nat) (s : RStore) : RStore :=
  rset s (refreshTokenKey fp userId token) (RVal.tok token)

/-- `revokeRefreshToken(userId, token)`. -/
def revokeRefreshToken (fp : SignedToken → String) (userId : String) (token : SignedToken)
    (s : RStore) : RStore :=
  rdel s (refreshTokenKey fp userId token)

/-- `isRefreshTokenValid(userId, token)`: reads the fingerprint key and
compares the stored string to the presented token with `===`. -/
def isRefreshTokenValid (fp : SignedToken → String) (userId : String) (token : SignedToken)
    (s : RStore) : Bool :=
  decide (rget s (refreshTokenKey fp userId token) = some (RVal.tok token))

/-- `revokeAllUserTokens(userId)`: list keys under the user's range, then
batch-delete them only when at least one exists. -/
def revokeAllUserTokens (userId : String) (s : RStore) : RStore :=
  let ks := rkeys s (refreshKeySpace userId)
  if ks.length > 0 then rdelMany s ks else s

/-- `` `user:${userId}` ``. -/
def userCacheKey (userId : String) : String := "user:" ++ userId

/-- `cacheUserData(userId, userData, expiresInSeconds)`. -/
def cacheUserData (userId : String) (u : CachedUser) (_expiresInSeconds : Nat)
    (s : RStore) : RStore :=
  rset s (userCacheKey userId) (RVal.json u)

/-- `getCachedUserData(userId)`: `data ? JSON.parse(data) : null`. -/
def getCachedUserData (userId : String) (s : RStore) : Option CachedUser :=
  match rget s (userCacheKey userId) with
  | some (RVal.json u) => some u
  | _ => none

/-- `invalidateUserCache(userId)`. -/
def invalidateUserCache (userId : String) (s : RStore) : RStore :=
  rdel s (userCacheKey userId)

/-! ### Durable store (PostgreSQL) -/

/-- A row of the `sessions` table as inserted by register/login. -/
structure SessionRow where
  user_id : String
  refresh_token : SignedToken
  token_hash : String
  ip_address : String
  user_agent : String
  expires_at : Nat
deriving DecidableEq

/-- The durable store.  `nextId` is the id the database will assign to
the next inserted user row (`RETURNING id`). -/
structure Db where
  users : List User
  sessions : List SessionRow
  nextId : String
deriving DecidableEq

/-- `SELECT ... FROM users WHERE email = $1`, first row. -/
def findUserByEmail (db : Db) (email : String) : Option User :=
  db.users.find? (fun u => decide (u.email = email))

/-- `SELECT ... FROM users WHERE id = $1`, first row. -/
def findUserById (db : Db) (id : String) : Option User :=
  db.users.find? (fun u => decide (u.id = id))

/-- `UPDATE users SET last_login = NOW() WHERE id = $1`. -/
def updateLastLogin (db : Db) (id : String) (now : Nat) : Db :=
  { db with users := db.users.map (fun u =>
      if u.id = id then { u with last_login := some now } else u) }

/-- `UPDATE users SET is_active = false WHERE id = $1`. -/
def deactivateUser (db : Db) (id : String) : Db :=
  { db with users := db.users.map (fun u =>
      if u.id = id then { u with is_active := false } else u) }

/-- `INSERT INTO sessions ...`. -/
def insertSession (db : Db) (row : SessionRow) : Db :=
  { db with sessions := db.sessions ++ [row] }

/-! ### Flow-level state, results, and outcome knobs -/

/-- Combined mutable state a flow touches: the durable store and Redis. -/
structure SvcState where
  db : Db
  redis : RStore
deriving DecidableEq

/-- The machine-readable error codes produced by the embedded flows. -/
inductive ErrCode where
  | USER_EXISTS
  | INVALID_CREDENTIALS
  | ACCOUNT_DISABLED
  | INVALID_TOKEN
  | TOKEN_REVOKED
  | INVALID_USER
  | REGISTRATION_FAILED
  | LOGIN_FAILED
  | REFRESH_FAILED
  | USER_NOT_FOUND
deriving DecidableEq

/-- The token object returned by register/login. -/
structure TokenPair where
  access_token : SignedToken
  refresh_token : SignedToken
  token_type : String
  expires_in : Nat
deriving DecidableEq

/-- Outcome of register/login. -/
inductive AuthResult where
  | ok (user : User) (tokens : TokenPair)
  | err (code : ErrCode)
deriving DecidableEq

/-- Outcome of refresh: on success only a fresh access token is returned
(the refresh token is not rotated). -/
inductive RefreshResult where
  | ok (access_token : SignedToken) (token_type : String) (expires_in : Nat)
  | err (code : ErrCode)
deriving DecidableEq

/-- Outcome of deleteUser. -/
inductive DeleteResult where
  | ok
  | err (code : ErrCode)
deriving DecidableEq

/-- Request metadata consulted by register/login (`req.ip`,
`req.get('user-agent')`). -/
structure ReqMeta where
  ip : String
  user_agent : String
deriving DecidableEq

/-- Success/failure knobs for the awaited side-effect calls of a flow.
In the source each of these is awaited inside the flow's try block; a
rejected promise lands in the catch-all handler.  `true` means the call
succeeds. -/
structure IoOutcome where
  lastLoginOk : Bool
  storeRefreshOk : Bool
  sessionInsertOk : Bool
  cacheUserOk : Bool
deriving DecidableEq

/-- All side-effect calls succeed. -/
def IoOutcome.allOk : IoOutcome :=
  { lastLoginOk := true, storeRefreshOk := true,
    sessionInsertOk := true, cacheUserOk := true }

/-! ### authController.register -/

/-- The validated register request body fields the flow uses. -/
structure RegisterBody where
  email : String
  password : String
  role : String
  first_name : String
  last_name : String
  phone : Option String
  gym_id : Option String
deriving DecidableEq

/-- `register` (authController): check existence, hash the password
(`bhash` abstracts `bcrypt.hash(·, 10)`), insert the user, mint both
tokens, store the refresh fingerprint in Redis, insert the session row.
Note: the flow does not write the user projection cache.  A failing
awaited call after the user insert surfaces as `REGISTRATION_FAILED`
from the catch-all handler and does not roll back earlier writes. -/
def register (env : Env) (now : Nat) (fp : SignedToken → String)
    (bhash : String → String) (eff : IoOutcome) (meta : ReqMeta)
    (body : RegisterBody) (st : SvcState) : AuthResult × SvcState :=
  if (findUserByEmail st.db body.email).isSome then
    (AuthResult.err ErrCode.USER_EXISTS, st)
  else
    let user : User :=
      { id := st.db.nextId, email := body.email,
        password_hash := bhash body.password, role := body.role,
        first_name := body.first_name, last_name := body.last_name,
        phone := body.phone, gym_id := body.gym_id,
        is_active := true, last_login := none }
    let db1 : Db := { st.db with users := st.db.users ++ [user] }
    let accessToken := generateAccessToken env now user
    let refreshToken := generateRefreshToken env now user
    if !eff.storeRefreshOk then
      (AuthResult.err ErrCode.REGISTRATION_FAILED, { st with db := db1 })
    else
      let redis1 := storeRefreshToken fp user.id refreshToken 604800 st.redis
      if !eff.sessionInsertOk then
        (AuthResult.err ErrCode.REGISTRATION_FAILED, { db := db1, redis := redis1 })
      else
        let db2 := insertSession db1
          { user_id := user.id, refresh_token := refreshToken,
            token_hash := fp refreshToken, ip_address := meta.ip,
            user_agent := meta.user_agent, expires_at := now + 604800 }
        (AuthResult.ok user
          { access_token := accessToken, refresh_token := refreshToken,
            token_type := "Bearer", expires_in := 900 },
         { db := db2, redis := redis1 })

/-! ### authController.login -/

/-- `login` (authController): find by email, check `is_active` before
the password comparison, compare the password (`bcompare` abstracts
`bcrypt.compare`), update last-login (awaited: a failure lands in the
catch-all handler as `LOGIN_FAILED`), mint both tokens, store the
refresh fingerprint, insert the session row, warm the user projection
cache, return user and tokens. -/
def login (env : Env) (now : Nat) (fp : SignedToken → String)
    (bcompare : String → String → Bool) (eff : IoOutcome) (meta : ReqMeta)
    (email password : String) (st : SvcState) : AuthResult × SvcState :=
  match findUserByEmail st.db email with
  | none => (AuthResult.err ErrCode.INVALID_CREDENTIALS, st)
  | some user =>
    if !user.is_active then
      (AuthResult.err ErrCode.ACCOUNT_DISABLED, st)
    else if !bcompare password user.password_hash then
      (AuthResult.err ErrCode.INVALID_CREDENTIALS, st)
    else if !eff.lastLoginOk then
      (AuthResult.err ErrCode.LOGIN_FAILED, st)
    else
      let db1 := updateLastLogin st.db user.id now
      let accessToken := generateAccessToken env now user
      let refreshToken := generateRefreshToken env now user
      if !eff.storeRefreshOk then
        (AuthResult.err ErrCode.LOGIN_FAILED, { st with db := db1 })
      else
        let redis1 := storeRefreshToken fp user.id refreshToken 604800 st.redis
        if !eff.sessionInsertOk then
          (AuthResult.err ErrCode.LOGIN_FAILED, { db := db1, redis := redis1 })
        else
          let db2 := insertSession db1
            { user_id := user.id, refresh_token := refreshToken,
              token_hash := fp refreshToken, ip_address := meta.ip,
              user_agent := meta.user_agent, expires_at := now + 604800 }
          if !eff.cacheUserOk then
            (AuthResult.err ErrCode.LOGIN_FAILED, { db := db2, redis := redis1 })
          else
            let redis2 := cacheUserData user.id
              { id := user.id, email := user.email, role := user.role,
                first_name := user.first_name, last_name := user.last_name,
                gym_id := user.gym_id } 900 redis1
            (AuthResult.ok user
              { access_token := accessToken, refresh_token := refreshToken,
                token_type := "Bearer", expires_in := 900 },
             { db := db2, redis := redis2 })

/-! ### authController.refresh -/

/-- `refresh` (authController): verify the refresh signature
(`INVALID_TOKEN` on failure), consult the Redis store
(`TOKEN_REVOKED` when not live), fetch the user by the decoded id
(`INVALID_USER` when absent or inactive), and mint a new access token
only.  The flow performs no write to either store. -/
def refresh (env : Env) (now : Nat) (fp : SignedToken → String)
    (refresh_token : SignedToken) (st : SvcState) : RefreshResult × SvcState :=
  match verifyRefreshToken env now refresh_token with
  | none => (RefreshResult.err ErrCode.INVALID_TOKEN, st)
  | some decoded =>
    if !(isRefreshTokenValid fp decoded.id refresh_token st.redis) then
      (RefreshResult.err ErrCode.TOKEN_REVOKED, st)
    else
      match findUserById st.db decoded.id with
      | none => (RefreshResult.err ErrCode.INVALID_USER, st)
      | some user =>
        if !user.is_active then
          (RefreshResult.err ErrCode.INVALID_USER, st)
        else
          (RefreshResult.ok (generateAccessToken env now user) "Bearer" 900, st)

/-! ### userController.deleteUser (soft delete) -/

/-- `deleteUser` (userController): `UPDATE users SET is_active = false`
then, when a row was returned, invalidate the user projection cache.
No refresh-token record is touched. -/
def deleteUser (id : String) (st : SvcState) : DeleteResult × SvcState :=
  if (findUserById st.db id).isNone then
    (DeleteResult.err ErrCode.USER_NOT_FOUND, st)
  else
    (DeleteResult.ok,
     { db := deactivateUser st.db id, redis := invalidateUserCache id st.redis })

/-! ### Concrete sample values (used to instantiate theorems on closed inputs) -/

/-- A concrete environment with both signing secrets configured. -/
def sampleEnv : Env :=
  { JWT_SECRET := some "access-secret", JWT_REFRESH_SECRET := some "refresh-secret" }

/-- A concrete active user row. -/
def sampleUser : User :=
  { id := "u1", email := "a@x.com", password_hash := "pw-hash", role := "client",
    first_name := "A", last_name := "B", phone := none, gym_id := none,
    is_active := true, last_login := none }

/-- A concrete inactive user row (distinct id and email). -/
def sampleInactiveUser : User :=
  { id := "u2", email := "b@x.com", password_hash := "pw-hash2", role := "client",
    first_name := "C", last_name := "D", phone := none, gym_id := none,
    is_active := false, last_login := none }

/-- A concrete deterministic fingerprint function standing in for SHA-256. -/
def fpSample : SignedToken → String :=
  fun t => t.payload.id ++ "-" ++ toString t.iat ++ "-fp"

/-- A refresh token for `sampleUser` minted at time 0. -/
def sampleToken : SignedToken := generateRefreshToken sampleEnv 0 sampleUser

/-- A refresh token for `sampleInactiveUser` minted at time 0. -/
def sampleTokenInactive : SignedToken := generateRefreshToken sampleEnv 0 sampleInactiveUser

/-- A token whose signing secret is not the refresh secret (tampered). -/
def sampleTamperedToken : SignedToken :=
  { sampleToken with secret := "attacker-secret" }

/-- Concrete request metadata. -/
def sampleMeta : ReqMeta := { ip := "1.2.3.4", user_agent := "jest" }

/-- A concrete password-hashing stand-in for `bcrypt.hash(·, 10)`. -/
def bhashSample : String → String := fun p => p ++ "-hash"

/-- A concrete comparison stand-in for `bcrypt.compare`. -/
def bcompareSample : String → String → Bool := fun p h => decide (h = p ++ "-hash")

/-- Empty durable store assigning id "u1" to the next insert. -/
def emptyDb : Db := { users := [], sessions := [], nextId := "u1" }

/-- Service state with no users and an empty cache. -/
def emptyState : SvcState := { db := emptyDb, redis := [] }

/-- Service state holding `sampleUser` and `sampleInactiveUser` with
`sampleUser`'s refresh token live in the store. -/
def sampleState : SvcState :=
  { db := { users := [sampleUser, sampleInactiveUser], sessions := [], nextId := "u3" },
    redis := storeRefreshToken fpSample "u1" sampleToken 604800 [] }

/-- Like `sampleState` but with the refresh-token store empty (revoked). -/
def sampleStateRevoked : SvcState :=
  { db := { users := [sampleUser, sampleInactiveUser], sessions := [], nextId := "u3" },
    redis := [] }

/-- State whose store holds `sampleUser`'s token but whose durable store
has no matching user row. -/
def sampleStateNoUser : SvcState :=
  { db := emptyDb, redis := storeRefreshToken fpSample "u1" sampleToken 604800 [] }

/-- State holding only the inactive user, with that user's refresh token
live in the store. -/
def sampleStateInactive : SvcState :=
  { db := { users := [sampleInactiveUser], sessions := [], nextId := "u3" },
    redis := storeRefreshToken fpSample "u2" sampleTokenInactive 604800 [] }

/-- Outcome knob vector where only the last-login update fails. -/
def effLastLoginFails : IoOutcome :=
  { lastLoginOk := false, storeRefreshOk := true, sessionInsertOk := true, cacheUserOk := true }

/-- The register request body used in concrete runs. -/
def sampleRegisterBody : RegisterBody :=
  { email := "a@x.com", password := "pw", role := "client",
    first_name := "A", last_name := "B", phone := none, gym_id := none }

/-! ### Store lemmas -/

theorem rget_nil (k : String) : rget [] k = none := rfl

theorem rget_cons (kv : String × RVal) (t : RStore) (k : String) :
    rget (kv :: t) k = if kv.1 = k then some kv.2 else rget t k := rfl

theorem rdel_cons (kv : String × RVal) (t : RStore) (k : String) :
    rdel (kv :: t) k = if kv.1 = k then rdel t k else kv :: rdel t k := rfl

theorem rdelMany_cons (kv : String × RVal) (t : RStore) (ks : List String) :
    rdelMany (kv :: t) ks = if kv.1 ∈ ks then rdelMany t ks else kv :: rdelMany t ks := rfl

theorem rget_rdel_self (s : RStore) (k : String) : rget (rdel s k) k = none := by
  induction s with
  | nil => rfl
  | cons kv t ih =>
    rw [rdel_cons]
    by_cases hk : kv.1 = k
    · rw [if_pos hk]; exact ih
    · rw [if_neg hk, rget_cons, if_neg hk]; exact ih

theorem rget_rdel_ne (s : RStore) (k k2 : String) (h : k2 ≠ k) :
    rget (rdel s k) k2 = rget s k2 := by
  induction s with
  | nil => rfl
  | cons kv t ih =>
    rw [rdel_cons, rget_cons]
    by_cases hk : kv.1 = k
    · have hk2 : kv.1 ≠ k2 := fun he => h (by rw [← he, hk])
      rw [if_pos hk, if_neg hk2]; exact ih
    · rw [if_neg hk, rget_cons]
      by_cases hk2 : kv.1 = k2
      · rw [if_pos hk2, if_pos hk2]
      · rw [if_neg hk2, if_neg hk2]; exact ih

theorem rget_rset_self (s : RStore) (k : String) (v : RVal) :
    rget (rset s k v) k = some v := by
  rw [rset, rget_cons, if_pos rfl]

theorem rget_rset_ne (s : RStore) (k k2 : String) (v : RVal) (h : k2 ≠ k) :
    rget (rset s k v) k2 = rget s k2 := by
  rw [rset, rget_cons, if_neg (fun he => h he.symm)]
  exact rget_rdel_ne s k k2 h

theorem rdel_of_rget_none (s : RStore) (k : String) (h : rget s k = none) :
    rdel s k = s := by
  induction s with
  | nil => rfl
  | cons kv t ih =>
    rw [rget_cons] at h
    by_cases hk : kv.1 = k
    · rw [if_pos hk] at h; cases h
    · rw [if_neg hk] at h
      rw [rdel_cons, if_neg hk, ih h]

theorem rget_rdelMany_mem (s : RStore) (ks : List String) (k : String) (h : k ∈ ks) :
    rget (rdelMany s ks) k = none := by
  induction s with
  | nil => rfl
  | cons kv t ih =>
    rw [rdelMany_cons]
    by_cases hm : kv.1 ∈ ks
    · rw [if_pos hm]; exact ih
    · have hne : kv.1 ≠ k := fun he => hm (he ▸ h)
      rw [if_neg hm, rget_cons, if_neg hne]; exact ih

theorem rget_rdelMany_not_mem (s : RStore) (ks : List String) (k : String) (h : k ∉ ks) :
    rget (rdelMany s ks) k = rget s k := by
  induction s with
  | nil => rfl
  | cons kv t ih =>
    rw [rdelMany_cons, rget_cons]
    by_cases hm : kv.1 ∈ ks
    · have hne : kv.1 ≠ k := fun he => h (he ▸ hm)
      rw [if_pos hm, if_neg hne]; exact ih
    · rw [if_neg hm, rget_cons]
      by_cases hk : kv.1 = k
      · rw [if_pos hk, if_pos hk]
      · rw [if_neg hk, if_neg hk]; exact ih

theorem mem_rkeys_of_rget_some (s : RStore) (p k : String) (v : RVal)
    (hg : rget s k = some v) (hp : strStartsWith p k = true) : k ∈ rkeys s p := by
  have hex : ∃ kv, kv ∈ s ∧ kv.1 = k := by
    clear hp
    induction s with
    | nil => cases hg
    | cons kv t ih =>
      rw [rget_cons] at hg
      by_cases hk : kv.1 = k
      · exact ⟨kv, List.mem_cons_self kv t, hk⟩
      · rw [if_neg hk] at hg
        rcases ih hg with ⟨kv2, hmem, hk2⟩
        exact ⟨kv2, List.mem_cons_of_mem kv hmem, hk2⟩
  rcases hex with ⟨kv, hmem, hk⟩
  simp only [rkeys, List.mem_filter, List.mem_map]
  exact ⟨⟨kv, hmem, hk⟩, hp⟩

theorem startsWith_of_mem_rkeys (s : RStore) (p k : String) (h : k ∈ rkeys s p) :
    strStartsWith p k = true := by
  simp only [rkeys, List.mem_filter] at h
  exact h.2

/-! ### Key-shape lemmas

The Redis keyspace is flat strings; the fingerprint key of user `u` lies
in `u`'s scan range, two distinct users' fingerprint keys lie in
disjoint scan ranges (for user ids that do not contain the `:`
separator — ids in this system are UUIDs), and a fingerprint key is
never a `user:` projection-cache key. -/

theorem refreshTokenKey_eq (fp : SignedToken → String) (u : String) (t : SignedToken) :
    refreshTokenKey fp u t = refreshKeySpace u ++ fp t := rfl

theorem startsWith_append_self (p x : String) : strStartsWith p (p ++ x) = true := by
  simp [strStartsWith, String.data_append]

theorem startsWith_refreshTokenKey (fp : SignedToken → String) (u : String) (t : SignedToken) :
    strStartsWith (refreshKeySpace u) (refreshTokenKey fp u t) = true :=
  startsWith_append_self (refreshKeySpace u) (fp t)

theorem colon_sep_inj (a : List Char) : ∀ (b r s : List Char),
    (':' : Char) ∉ a → (':' : Char) ∉ b →
    (a ++ [':']) ++ s = b ++ ':' :: r → a = b := by
  induction a with
  | nil =>
    intro b r s _ hb hs
    cases b with
    | nil => rfl
    | cons d bt =>
      simp only [List.nil_append, List.cons_append] at hs
      injection hs with h1 _
      subst h1
      exact absurd (List.mem_cons_self _ _) hb
  | cons c ct ih =>
    intro b r s ha hb hs
    cases b with
    | nil =>
      simp only [List.cons_append, List.nil_append] at hs
      injection hs with h1 _
      subst h1
      exact absurd (List.mem_cons_self _ _) ha
    | cons d bt =>
      simp only [List.cons_append] at hs
      injection hs with h1 h2
      have ha2 : (':' : Char) ∉ ct := fun hm => ha (List.mem_cons_of_mem _ hm)
      have hb2 : (':' : Char) ∉ bt := fun hm => hb (List.mem_cons_of_mem _ hm)
      rw [h1, ih bt r s ha2 hb2 h2]

theorem eq_of_startsWith_refreshKeySpace (fp : SignedToken → String) (u u2 : String)
    (t2 : SignedToken) (hu : (':' : Char) ∉ u.data) (hu2 : (':' : Char) ∉ u2.data)
    (h : strStartsWith (refreshKeySpace u) (refreshTokenKey fp u2 t2) = true) : u = u2 := by
  have hpre : (refreshKeySpace u).data <+: (refreshTokenKey fp u2 t2).data :=
    List.isPrefixOf_iff_prefix.mp h
  rw [refreshKeySpace, refreshTokenKey] at hpre
  simp only [String.data_append, List.append_assoc] at hpre
  have hstrip := (List.prefix_append_right_inj ("refresh_token:".data)).mp hpre
  rcases hstrip with ⟨s, hs⟩
  simp only [List.append_assoc] at hs
  have hdata : u.data = u2.data := by
    refine colon_sep_inj u.data u2.data ((fp t2).data) s hu hu2 ?_
    simpa [List.append_assoc] using hs
  exact String.ext hdata

theorem startsWith_refreshKeySpace_other (fp : SignedToken → String) (u u2 : String)
    (t2 : SignedToken) (hne : u ≠ u2) (hu : (':' : Char) ∉ u.data)
    (hu2 : (':' : Char) ∉ u2.data) :
    strStartsWith (refreshKeySpace u) (refreshTokenKey fp u2 t2) = false := by
  cases hsw : strStartsWith (refreshKeySpace u) (refreshTokenKey fp u2 t2) with
  | false => rfl
  | true => exact absurd (eq_of_startsWith_refreshKeySpace fp u u2 t2 hu hu2 hsw) hne

theorem userCacheKey_ne_refreshTokenKey (a : String) (fp : SignedToken → String)
    (u : String) (t : SignedToken) : userCacheKey a ≠ refreshTokenKey fp u t := by
  intro h
  rw [userCacheKey, refreshTokenKey] at h
  have hd := congrArg String.data h
  simp only [String.data_append] at hd
  simp only [List.cons_append, List.append_assoc] at hd
  injection hd with h1 _
  exact absurd h1 (by decide)

/-! ### Refresh-token store lemmas -/

theorem isRefreshTokenValid_store (fp : SignedToken → String) (u : String)
    (t : SignedToken) (ttl : Nat) (s : RStore) :
    isRefreshTokenValid fp u t (storeRefreshToken fp u t ttl s) = true := by
  simp [isRefreshTokenValid, storeRefreshToken, rget_rset_self]

theorem isRefreshTokenValid_revoke (fp : SignedToken → String) (u : String)
    (t : SignedToken) (s : RStore) :
    isRefreshTokenValid fp u t (revokeRefreshToken fp u t s) = false := by
  simp [isRefreshTokenValid, revokeRefreshToken, rget_rdel_self]

theorem isRefreshTokenValid_rget (fp : SignedToken → String) (u : String)
    (t : SignedToken) (s : RStore) (h : isRefreshTokenValid fp u t s = true) :
    rget s (refreshTokenKey fp u t) = some (RVal.tok t) := by
  simpa [isRefreshTokenValid] using h

/-! ### Claim C1 -/

/-- C1: RefreshTokenStore lifecycle.  After `put(u, t, ttl)`,
`isValid(u, t)` is true; after `revoke(u, t)`, `isValid(u, t)` is false;
`revoke` on a store holding no record for the key leaves the store
unchanged (and `revoke` is idempotent), so revoking an absent record
completes without error. -/
theorem C1_refreshTokenStore_lifecycle (fp : SignedToken → String) (u : String)
    (t : SignedToken) (ttl : Nat) (s : RStore) :
    isRefreshTokenValid fp u t (storeRefreshToken fp u t ttl s) = true ∧
    isRefreshTokenValid fp u t (revokeRefreshToken fp u t s) = false ∧
    (rget s (refreshTokenKey fp u t) = none → revokeRefreshToken fp u t s = s) ∧
    revokeRefreshToken fp u t (revokeRefreshToken fp u t s) = revokeRefreshToken fp u t s := by
  refine ⟨isRefreshTokenValid_store fp u t ttl s, isRefreshTokenValid_revoke fp u t s, ?_, ?_⟩
  · intro h
    exact rdel_of_rget_none s (refreshTokenKey fp u t) h
  · exact rdel_of_rget_none _ _ (rget_rdel_self s (refreshTokenKey fp u t))

/-- Witness for C1: the absent-record hypothesis is discharged on the
empty store. -/
theorem C1_refreshTokenStore_lifecycle_witness :
    rget [] (refreshTokenKey fpSample "u1" sampleToken) = none ∧
    revokeRefreshToken fpSample "u1" sampleToken [] = [] :=
  ⟨rfl, (C1_refreshTokenStore_lifecycle fpSample "u1" sampleToken 604800 []).2.2.1 rfl⟩

/-! ### Claim C2 -/

/-- C2: after `revokeAll(u)`, `isValid(u, t)` is false for every token of
`u` that was previously valid; records of every other user are unchanged
(user ids are colon-free, as the system's UUIDs are); and `revokeAll`
with zero prior records for `u` leaves the store unchanged (no error). -/
theorem C2_revokeAll_user_tokens (fp : SignedToken → String) (u : String) (s : RStore)
    (hu : (':' : Char) ∉ u.data) :
    (∀ t : SignedToken, isRefreshTokenValid fp u t s = true →
       isRefreshTokenValid fp u t (revokeAllUserTokens u s) = false) ∧
    (∀ (u2 : String) (t2 : SignedToken), u ≠ u2 → (':' : Char) ∉ u2.data →
       isRefreshTokenValid fp u2 t2 (revokeAllUserTokens u s)
         = isRefreshTokenValid fp u2 t2 s) ∧
    (rkeys s (refreshKeySpace u) = [] → revokeAllUserTokens u s = s) := by
  refine ⟨?_, ?_, ?_⟩
  · intro t hv
    have hg := isRefreshTokenValid_rget fp u t s hv
    have hmem : refreshTokenKey fp u t ∈ rkeys s (refreshKeySpace u) :=
      mem_rkeys_of_rget_some s (refreshKeySpace u) (refreshTokenKey fp u t)
        (RVal.tok t) hg (startsWith_refreshTokenKey fp u t)
    have hlen : 0 < (rkeys s (refreshKeySpace u)).length :=
      List.length_pos.mpr (List.ne_nil_of_mem hmem)
    rw [revokeAllUserTokens]
    simp only [if_pos hlen]
    simp [isRefreshTokenValid, rget_rdelMany_mem s _ _ hmem]
  · intro u2 t2 hne hu2
    rw [revokeAllUserTokens]
    by_cases hlen : 0 < (rkeys s (refreshKeySpace u)).length
    · simp only [if_pos hlen]
      have hnm : refreshTokenKey fp u2 t2 ∉ rkeys s (refreshKeySpace u) := by
        intro hmem
        have hsw := startsWith_of_mem_rkeys s (refreshKeySpace u) _ hmem
        rw [startsWith_refreshKeySpace_other fp u u2 t2 hne hu hu2] at hsw
        cases hsw
      simp [isRefreshTokenValid, rget_rdelMany_not_mem s _ _ hnm]
    · simp only [if_neg hlen]
  · intro h
    rw [revokeAllUserTokens]
    simp [h]

/-- Witness for C2: instantiated on a store holding one live token for
user "u1", revoking all of "u1"'s tokens invalidates it, leaves user
"u2"'s liveness query unchanged, and `revokeAll` on the empty store is a
no-op. -/
theorem C2_revokeAll_user_tokens_witness :
    ((':' : Char) ∉ "u1".data) ∧
    isRefreshTokenValid fpSample "u1" sampleToken sampleState.redis = true ∧
    isRefreshTokenValid fpSample "u1" sampleToken
      (revokeAllUserTokens "u1" sampleState.redis) = false ∧
    isRefreshTokenValid fpSample "u2" sampleTokenInactive
      (revokeAllUserTokens "u1" sampleState.redis)
      = isRefreshTokenValid fpSample "u2" sampleTokenInactive sampleState.redis ∧
    (rkeys [] (refreshKeySpace "u1") = [] ∧ revokeAllUserTokens "u1" [] = []) := by
  have hu1 : (':' : Char) ∉ "u1".data := by decide
  have hu2 : (':' : Char) ∉ "u2".data := by decide
  have hv : isRefreshTokenValid fpSample "u1" sampleToken sampleState.redis = true := by decide
  refine ⟨hu1, hv, ?_, ?_, ?_, ?_⟩
  · exact (C2_revokeAll_user_tokens fpSample "u1" sampleState.redis hu1).1 sampleToken hv
  · exact (C2_revokeAll_user_tokens fpSample "u1" sampleState.redis hu1).2.1 "u2"
      sampleTokenInactive (by decide) hu2
  · rfl
  · exact (C2_revokeAll_user_tokens fpSample "u1" ([] : RStore) hu1).2.2 rfl

/-! ### Claim C6 -/

/-- C6: refresh-token round-trip.  `verifyRefresh(issueRefresh(user))`
succeeds at any instant before expiry, the returned claims carry
subject `id = user.id` and `type = "refresh"`, and the claims carry no
email and no role field (both read as absent). -/
theorem C6_refresh_token_round_trip (env : Env) (now now2 : Nat) (u : User)
    (h : now2 < now + jwtRefreshExpirySeconds) :
    verifyRefreshToken env now2 (generateRefreshToken env now u)
      = some { id := u.id, email := none, role := none, gym_id := none,
               type := some "refresh" } := by
  simp [verifyRefreshToken, verifyToken, generateRefreshToken, h]

/-- Witness for C6: verification at the issuance instant. -/
theorem C6_refresh_token_round_trip_witness :
    (0 < 0 + jwtRefreshExpirySeconds) ∧
    verifyRefreshToken sampleEnv 0 (generateRefreshToken sampleEnv 0 sampleUser)
      = some { id := "u1", email := none, role := none, gym_id := none,
               type := some "refresh" } :=
  ⟨by decide, C6_refresh_token_round_trip sampleEnv 0 0 sampleUser (by decide)⟩

/-! ### Claim C3 -/

/-- C3: the refresh flow checks in a fixed order with distinct errors:
a bad signature (wrong signing secret) or past expiry yields
`INVALID_TOKEN`; a signature-valid token with no live store record
yields `TOKEN_REVOKED`; a live token whose user is absent or inactive
yields `INVALID_USER`.  Each later conclusion assumes exactly the
earlier checks as hypotheses, so each check is reached only when the
earlier ones passed. -/
theorem C3_refresh_error_order (env : Env) (now : Nat) (fp : SignedToken → String)
    (tok : SignedToken) (st : SvcState) :
    (tok.secret ≠ env.jwtRefreshSecret →
       refresh env now fp tok st = (RefreshResult.err ErrCode.INVALID_TOKEN, st)) ∧
    (tok.exp ≤ now →
       refresh env now fp tok st = (RefreshResult.err ErrCode.INVALID_TOKEN, st)) ∧
    (∀ d : Claims, verifyRefreshToken env now tok = some d →
       isRefreshTokenValid fp d.id tok st.redis = false →
       refresh env now fp tok st = (RefreshResult.err ErrCode.TOKEN_REVOKED, st)) ∧
    (∀ d : Claims, verifyRefreshToken env now tok = some d →
       isRefreshTokenValid fp d.id tok st.redis = true →
       findUserById st.db d.id = none →
       refresh env now fp tok st = (RefreshResult.err ErrCode.INVALID_USER, st)) ∧
    (∀ (d : Claims) (u : User), verifyRefreshToken env now tok = some d →
       isRefreshTokenValid fp d.id tok st.redis = true →
       findUserById st.db d.id = some u → u.is_active = false →
       refresh env now fp tok st = (RefreshResult.err ErrCode.INVALID_USER, st)) := by
  refine ⟨?_, ?_, ?_, ?_, ?_⟩
  · intro h
    have hv : verifyRefreshToken env now tok = none := by
      simp [verifyRefreshToken, verifyToken, h]
    simp [refresh, hv]
  · intro h
    have hlt : ¬ now < tok.exp := not_lt.mpr h
    have hv : verifyRefreshToken env now tok = none := by
      simp [verifyRefreshToken, verifyToken, hlt]
    simp [refresh, hv]
  · intro d hv hl
    simp [refresh, hv, hl]
  · intro d hv hl hf
    simp [refresh, hv, hl, hf]
  · intro d u hv hl hf ha
    simp [refresh, hv, hl, hf, ha]

/-- Witness for C3: each of the five error branches exercised on a
closed input — a tampered token, an expired token, a revoked token, a
live token of a deleted user, and a live token of an inactive user. -/
theorem C3_refresh_error_order_witness :
    refresh sampleEnv 0 fpSample sampleTamperedToken sampleState
      = (RefreshResult.err ErrCode.INVALID_TOKEN, sampleState) ∧
    refresh sampleEnv 604800 fpSample sampleToken sampleState
      = (RefreshResult.err ErrCode.INVALID_TOKEN, sampleState) ∧
    refresh sampleEnv 0 fpSample sampleToken sampleStateRevoked
      = (RefreshResult.err ErrCode.TOKEN_REVOKED, sampleStateRevoked) ∧
    refresh sampleEnv 0 fpSample sampleToken sampleStateNoUser
      = (RefreshResult.err ErrCode.INVALID_USER, sampleStateNoUser) ∧
    refresh sampleEnv 0 fpSample sampleTokenInactive sampleStateInactive
      = (RefreshResult.err ErrCode.INVALID_USER, sampleStateInactive) := by
  refine ⟨?_, ?_, ?_, ?_, ?_⟩
  · exact (C3_refresh_error_order sampleEnv 0 fpSample sampleTamperedToken sampleState).1
      (by decide)
  · exact (C3_refresh_error_order sampleEnv 604800 fpSample sampleToken sampleState).2.1
      (by decide)
  · exact (C3_refresh_error_order sampleEnv 0 fpSample sampleToken
      sampleStateRevoked).2.2.1
      { id := "u1", email := none, role := none, gym_id := none, type := some "refresh" }
      (by decide) (by decide)
  · exact (C3_refresh_error_order sampleEnv 0 fpSample sampleToken
      sampleStateNoUser).2.2.2.1
      { id := "u1", email := none, role := none, gym_id := none, type := some "refresh" }
      (by decide) (by decide) (by decide)
  · exact (C3_refresh_error_order sampleEnv 0 fpSample sampleTokenInactive
      sampleStateInactive).2.2.2.2
      { id := "u2", email := none, role := none, gym_id := none, type := some "refresh" }
      sampleInactiveUser (by decide) (by decide) (by decide) (by decide)

/-! ### Claim C4 -/

/-- C4: login credential checks.  Unknown email yields
`INVALID_CREDENTIALS`; a matching but inactive user yields
`ACCOUNT_DISABLED` under every possible comparison function (the inner
universal over `bc` formalises that the stored hash is never consulted:
the outcome is independent of the comparator); an active user whose
secret mismatches yields `INVALID_CREDENTIALS` — the same error
constructor as the unknown-email case. -/
theorem C4_login_credential_checks (env : Env) (now : Nat) (fp : SignedToken → String)
    (bcompare : String → String → Bool) (eff : IoOutcome) (meta : ReqMeta)
    (email password : String) (st : SvcState) :
    (findUserByEmail st.db email = none →
       login env now fp bcompare eff meta email password st
         = (AuthResult.err ErrCode.INVALID_CREDENTIALS, st)) ∧
    (∀ user : User, findUserByEmail st.db email = some user → user.is_active = false →
       ∀ bc : String → String → Bool,
         login env now fp bc eff meta email password st
           = (AuthResult.err ErrCode.ACCOUNT_DISABLED, st)) ∧
    (∀ user : User, findUserByEmail st.db email = some user → user.is_active = true →
       bcompare password user.password_hash = false →
       login env now fp bcompare eff meta email password st
         = (AuthResult.err ErrCode.INVALID_CREDENTIALS, st)) := by
  refine ⟨?_, ?_, ?_⟩
  · intro h
    simp [login, h]
  · intro user hf ha bc
    simp [login, hf, ha]
  · intro user hf ha hb
    simp [login, hf, ha, hb]

/-- Witness for C4: unknown email on the empty store, the inactive user,
and a wrong secret for the active user, all on closed inputs. -/
theorem C4_login_credential_checks_witness :
    login sampleEnv 0 fpSample bcompareSample IoOutcome.allOk sampleMeta
      "nobody@x.com" "pw" sampleState
      = (AuthResult.err ErrCode.INVALID_CREDENTIALS, sampleState) ∧
    login sampleEnv 0 fpSample (fun _ _ => true) IoOutcome.allOk sampleMeta
      "b@x.com" "pw2" sampleState
      = (AuthResult.err ErrCode.ACCOUNT_DISABLED, sampleState) ∧
    login sampleEnv 0 fpSample bcompareSample IoOutcome.allOk sampleMeta
      "a@x.com" "wrong" sampleState
      = (AuthResult.err ErrCode.INVALID_CREDENTIALS, sampleState) := by
  refine ⟨?_, ?_, ?_⟩
  · exact (C4_login_credential_checks sampleEnv 0 fpSample bcompareSample IoOutcome.allOk
      sampleMeta "nobody@x.com" "pw" sampleState).1 (by decide)
  · exact (C4_login_credential_checks sampleEnv 0 fpSample bcompareSample IoOutcome.allOk
      sampleMeta "b@x.com" "pw2" sampleState).2.1 sampleInactiveUser (by decide) (by decide)
      (fun _ _ => true)
  · exact (C4_login_credential_checks sampleEnv 0 fpSample bcompareSample IoOutcome.allOk
      sampleMeta "a@x.com" "wrong" sampleState).2.2 sampleUser (by decide) (by decide)
      (by decide)

/-! ### Claim C5 -/

/-- C5: non-rotation idempotence.  For a signature-valid refresh token
that is live in the store and whose user is active, the refresh flow
succeeds; it returns only a freshly issued access token (expiring
`jwtExpirySeconds` after the call's instant); it performs no write at
all (the state is returned unchanged), so in particular the
refresh-token store record is neither modified nor deleted; and a
second presentation of the same token, at any later instant before the
token's expiry, succeeds again with a fresh, independently-expiring
access token. -/
theorem C5_refresh_non_rotation_idempotent (env : Env) (now now2 : Nat)
    (fp : SignedToken → String) (tok : SignedToken) (st : SvcState) (d : Claims) (u : User)
    (hv : verifyRefreshToken env now tok = some d)
    (hl : isRefreshTokenValid fp d.id tok st.redis = true)
    (hu : findUserById st.db d.id = some u)
    (ha : u.is_active = true)
    (he : now2 < tok.exp) :
    refresh env now fp tok st
      = (RefreshResult.ok (generateAccessToken env now u) "Bearer" 900, st) ∧
    refresh env now2 fp tok (refresh env now fp tok st).2
      = (RefreshResult.ok (generateAccessToken env now2 u) "Bearer" 900, st) ∧
    (generateAccessToken env now u).exp = now + jwtExpirySeconds ∧
    (generateAccessToken env now2 u).exp = now2 + jwtExpirySeconds ∧
    (refresh env now fp tok st).2 = st := by
  have hcond : tok.secret = env.jwtRefreshSecret ∧ tok.issuer = issuerName ∧
      tok.audience = audienceName ∧ now < tok.exp := by
    rw [verifyRefreshToken, verifyToken] at hv
    by_cases hc : tok.secret = env.jwtRefreshSecret ∧ tok.issuer = issuerName ∧
        tok.audience = audienceName ∧ now < tok.exp
    · exact hc
    · rw [if_neg hc] at hv; cases hv
  have hpayload : tok.payload = d := by
    rw [verifyRefreshToken, verifyToken, if_pos hcond] at hv
    injection hv
  have hv2 : verifyRefreshToken env now2 tok = some d := by
    rw [verifyRefreshToken, verifyToken, if_pos ⟨hcond.1, hcond.2.1, hcond.2.2.1, he⟩,
      hpayload]
  have h1 : refresh env now fp tok st
      = (RefreshResult.ok (generateAccessToken env now u) "Bearer" 900, st) := by
    simp [refresh, hv, hl, hu, ha]
  have h2 : refresh env now2 fp tok st
      = (RefreshResult.ok (generateAccessToken env now2 u) "Bearer" 900, st) := by
    simp [refresh, hv2, hl, hu, ha]
  refine ⟨h1, ?_, rfl, rfl, by rw [h1]⟩
  rw [h1]
  exact h2

/-- Witness for C5: `sampleUser`'s live token presented at instants 0 and
10. -/
theorem C5_refresh_non_rotation_idempotent_witness :
    refresh sampleEnv 0 fpSample sampleToken sampleState
      = (RefreshResult.ok (generateAccessToken sampleEnv 0 sampleUser) "Bearer" 900,
         sampleState) ∧
    refresh sampleEnv 10 fpSample sampleToken
        (refresh sampleEnv 0 fpSample sampleToken sampleState).2
      = (RefreshResult.ok (generateAccessToken sampleEnv 10 sampleUser) "Bearer" 900,
         sampleState) := by
  have h := C5_refresh_non_rotation_idempotent sampleEnv 0 10 fpSample sampleToken
    sampleState
    { id := "u1", email := none, role := none, gym_id := none, type := some "refresh" }
    sampleUser (by decide) (by decide) (by decide) (by decide) (by decide)
  exact ⟨h.1, h.2.1⟩

/-! ### Claim C10 -/

/-- C10: the refresh flow never writes (its returned state is the input
state, for every outcome); in particular when it rejects with
`INVALID_USER` the refresh-token record is untouched and `isValid` still
answers true afterwards; and `deleteUser` (soft delete) invalidates only
the user projection cache — every refresh-token liveness query is
unchanged, so deactivating a user revokes none of their stored refresh
tokens. -/
theorem C10_invalid_user_leaves_store (env : Env) (now : Nat) (fp : SignedToken → String)
    (tok : SignedToken) (st : SvcState) (d : Claims) (u : User) :
    ((refresh env now fp tok st).2 = st) ∧
    (verifyRefreshToken env now tok = some d →
     isRefreshTokenValid fp d.id tok st.redis = true →
     (findUserById st.db d.id = none ∨
        (findUserById st.db d.id = some u ∧ u.is_active = false)) →
     refresh env now fp tok st = (RefreshResult.err ErrCode.INVALID_USER, st) ∧
     isRefreshTokenValid fp d.id tok (refresh env now fp tok st).2.redis = true) ∧
    (∀ (id u2 : String) (t2 : SignedToken),
       isRefreshTokenValid fp u2 t2 (deleteUser id st).2.redis
         = isRefreshTokenValid fp u2 t2 st.redis) := by
  have hstate : (refresh env now fp tok st).2 = st := by
    rw [refresh]
    cases hv : verifyRefreshToken env now tok with
    | none => rfl
    | some d2 =>
      by_cases hl : isRefreshTokenValid fp d2.id tok st.redis
      · simp only [hl]
        cases hf : findUserById st.db d2.id with
        | none => rfl
        | some u2 => by_cases ha : u2.is_active <;> simp [ha]
      · simp [hl]
  refine ⟨hstate, ?_, ?_⟩
  · intro hv hl hcase
    have hres : refresh env now fp tok st = (RefreshResult.err ErrCode.INVALID_USER, st) := by
      rcases hcase with hf | ⟨hf, ha⟩
      · simp [refresh, hv, hl, hf]
      · simp [refresh, hv, hl, hf, ha]
    exact ⟨hres, by rw [hstate]; exact hl⟩
  · intro id u2 t2
    rw [deleteUser]
    by_cases hfind : (findUserById st.db id).isNone
    · rw [if_pos hfind]
    · rw [if_neg hfind]
      show isRefreshTokenValid fp u2 t2 (invalidateUserCache id st.redis)
        = isRefreshTokenValid fp u2 t2 st.redis
      rw [isRefreshTokenValid, isRefreshTokenValid, invalidateUserCache,
        rget_rdel_ne st.redis (userCacheKey id) (refreshTokenKey fp u2 t2)
          (fun he => userCacheKey_ne_refreshTokenKey id fp u2 t2 he.symm)]

/-- Witness for C10: the inactive user's live token is rejected with
`INVALID_USER` yet stays valid in the store, and soft-deleting the user
leaves the liveness query unchanged. -/
theorem C10_invalid_user_leaves_store_witness :
    refresh sampleEnv 0 fpSample sampleTokenInactive sampleStateInactive
      = (RefreshResult.err ErrCode.INVALID_USER, sampleStateInactive) ∧
    isRefreshTokenValid fpSample "u2" sampleTokenInactive
      (refresh sampleEnv 0 fpSample sampleTokenInactive sampleStateInactive).2.redis
      = true ∧
    isRefreshTokenValid fpSample "u2" sampleTokenInactive
      (deleteUser "u2" sampleStateInactive).2.redis
      = isRefreshTokenValid fpSample "u2" sampleTokenInactive sampleStateInactive.redis := by
  have h := C10_invalid_user_leaves_store sampleEnv 0 fpSample sampleTokenInactive
    sampleStateInactive
    { id := "u2", email := none, role := none, gym_id := none, type := some "refresh" }
    sampleInactiveUser
  have hcase := h.2.1 (by decide) (by decide) (Or.inr ⟨by decide, by decide⟩)
  exact ⟨hcase.1, hcase.2, h.2.2 "u2" "u2" sampleTokenInactive⟩

/-- Writing a refresh-token record never changes a projection-cache
read: the two key families are disjoint. -/
theorem getCachedUserData_storeRefreshToken (uid u : String) (fp : SignedToken → String)
    (t : SignedToken) (ttl : Nat) (s : RStore) :
    getCachedUserData uid (storeRefreshToken fp u t ttl s) = getCachedUserData uid s := by
  rw [getCachedUserData, getCachedUserData, storeRefreshToken,
    rget_rset_ne s (refreshTokenKey fp u t) (userCacheKey uid) (RVal.tok t)
      (userCacheKey_ne_refreshTokenKey uid fp u t)]

/-! ### Claim C7 -/

/-- C7 counterexample: valid credentials, active account, and a failing
last-login update — the flow aborts with `LOGIN_FAILED` and returns no
tokens, contradicting the claim that the update is best-effort and the
login still completes successfully. -/
theorem C7_lastLogin_failure_aborts_cx :
    login sampleEnv 0 fpSample bcompareSample effLastLoginFails sampleMeta
      "a@x.com" "pw" sampleState
      = (AuthResult.err ErrCode.LOGIN_FAILED, sampleState) := by decide

/-- C7 amended: the last-login update is awaited inside the flow's
try/catch, so its failure aborts the login flow: for every login with
valid credentials on an active account, a failing last-login update
makes the flow return the catch-all `LOGIN_FAILED` error (no tokens)
with no state change. -/
theorem C7_lastLogin_failure_aborts (env : Env) (now : Nat) (fp : SignedToken → String)
    (bcompare : String → String → Bool) (eff : IoOutcome) (meta : ReqMeta)
    (email password : String) (st : SvcState) (user : User)
    (hf : findUserByEmail st.db email = some user)
    (ha : user.is_active = true)
    (hb : bcompare password user.password_hash = true)
    (hl : eff.lastLoginOk = false) :
    login env now fp bcompare eff meta email password st
      = (AuthResult.err ErrCode.LOGIN_FAILED, st) := by
  simp [login, hf, ha, hb, hl]

/-- Witness for the amended C7. -/
theorem C7_lastLogin_failure_aborts_witness :
    findUserByEmail sampleState.db "a@x.com" = some sampleUser ∧
    login sampleEnv 0 fpSample bcompareSample effLastLoginFails sampleMeta
      "a@x.com" "pw" sampleState
      = (AuthResult.err ErrCode.LOGIN_FAILED, sampleState) :=
  ⟨by decide,
   C7_lastLogin_failure_aborts sampleEnv 0 fpSample bcompareSample effLastLoginFails
     sampleMeta "a@x.com" "pw" sampleState sampleUser (by decide) (by decide)
     (by decide) (by decide)⟩

/-! ### Claim C8 -/

/-- C8 counterexample: with no signing secret configured, the service
does not fail — `Env.jwtSecret` silently resolves to the hardcoded
fallback, access-token issuance succeeds with that substitute key
material, and the resulting token verifies, so the service serves
traffic instead of aborting at startup. -/
theorem C8_signing_key_fallback_cx :
    Env.jwtSecret { JWT_SECRET := none, JWT_REFRESH_SECRET := none } = defaultJwtSecret ∧
    (generateAccessToken { JWT_SECRET := none, JWT_REFRESH_SECRET := none } 0
      sampleUser).secret = defaultJwtSecret ∧
    verifyAccessToken { JWT_SECRET := none, JWT_REFRESH_SECRET := none } 0
      (generateAccessToken { JWT_SECRET := none, JWT_REFRESH_SECRET := none } 0 sampleUser)
      = some { id := "u1", email := some "a@x.com", role := some "client",
               gym_id := none, type := none } := by decide

/-- C8 amended: a missing signing-key configuration is silently masked
by a hardcoded default (`JWT_SECRET || 'your-super-secret-jwt-key'`):
the service never aborts and access-token issuance never fails — it is
total, always signs with the resolved secret, and when `JWT_SECRET` is
unset it succeeds with the substitute default key material. -/
theorem C8_signing_key_fallback (env : Env) (now : Nat) (u : User) :
    (generateAccessToken env now u).secret = env.jwtSecret ∧
    (env.JWT_SECRET = none → (generateAccessToken env now u).secret = defaultJwtSecret) ∧
    verifyAccessToken env now (generateAccessToken env now u)
      = some { id := u.id, email := some u.email, role := some u.role,
               gym_id := u.gym_id, type := none } := by
  refine ⟨rfl, ?_, ?_⟩
  · intro h
    simp [generateAccessToken, Env.jwtSecret, h]
  · simp [verifyAccessToken, verifyToken, generateAccessToken, jwtExpirySeconds]

/-- Witness for the amended C8: the unset-secret hypothesis discharged
on the empty environment. -/
theorem C8_signing_key_fallback_witness :
    (Env.JWT_SECRET { JWT_SECRET := none, JWT_REFRESH_SECRET := none } = none) ∧
    (generateAccessToken { JWT_SECRET := none, JWT_REFRESH_SECRET := none } 3
      sampleUser).secret = defaultJwtSecret :=
  ⟨rfl,
   (C8_signing_key_fallback { JWT_SECRET := none, JWT_REFRESH_SECRET := none } 3
     sampleUser).2.1 rfl⟩

/-! ### Claim C9 -/

/-- C9 counterexample: a successful register run on the empty state
creates the user, yet a cache read for the new user id observes absence
— register never warms the user projection cache. -/
theorem C9_register_does_not_warm_cache_cx :
    (register sampleEnv 0 fpSample bhashSample IoOutcome.allOk sampleMeta
        sampleRegisterBody emptyState).1
      = AuthResult.ok sampleUser
          { access_token := generateAccessToken sampleEnv 0 sampleUser,
            refresh_token := generateRefreshToken sampleEnv 0 sampleUser,
            token_type := "Bearer", expires_in := 900 } ∧
    getCachedUserData "u1"
      (register sampleEnv 0 fpSample bhashSample IoOutcome.allOk sampleMeta
        sampleRegisterBody emptyState).2.redis
      = none := by decide

/-- C9 amended: the register flow leaves the user projection cache
untouched (every cache read observes exactly what it observed before
the call — absence, for a fresh user); the cache is warmed by the login
flow instead, whose success leaves the denormalised record readable. -/
theorem C9_register_leaves_cache_login_warms (env : Env) (now : Nat)
    (fp : SignedToken → String) (bhash : String → String) (eff : IoOutcome)
    (meta : ReqMeta) (body : RegisterBody) (st : SvcState) :
    (∀ uid : String,
       getCachedUserData uid (register env now fp bhash eff meta body st).2.redis
         = getCachedUserData uid st.redis) ∧
    (∀ (bcompare : String → String → Bool) (email password : String) (user : User),
       findUserByEmail st.db email = some user → user.is_active = true →
       bcompare password user.password_hash = true →
       getCachedUserData user.id
         (login env now fp bcompare IoOutcome.allOk meta email password st).2.redis
         = some { id := user.id, email := user.email, role := user.role,
                  first_name := user.first_name, last_name := user.last_name,
                  gym_id := user.gym_id }) := by
  constructor
  · intro uid
    rw [register]
    by_cases h1 : (findUserByEmail st.db body.email).isSome
    · rw [if_pos h1]
    · rw [if_neg h1]
      cases hsr : eff.storeRefreshOk with
      | false => simp
      | true =>
        cases hsi : eff.sessionInsertOk with
        | false => simp [getCachedUserData_storeRefreshToken]
        | true => simp [getCachedUserData_storeRefreshToken]
  · intro bcompare email password user hf ha hb
    simp [login, hf, ha, hb, IoOutcome.allOk, getCachedUserData, cacheUserData,
      rget_rset_self]

/-- Witness for the amended C9: the register frame on the concrete run,
and the warmed cache after a concrete successful login. -/
theorem C9_register_leaves_cache_login_warms_witness :
    getCachedUserData "u1"
      (register sampleEnv 0 fpSample bhashSample IoOutcome.allOk sampleMeta
        sampleRegisterBody emptyState).2.redis
      = getCachedUserData "u1" emptyState.redis ∧
    getCachedUserData "u1"
      (login sampleEnv 0 fpSample bcompareSample IoOutcome.allOk sampleMeta
        "a@x.com" "pw" sampleState).2.redis
      = some { id := "u1", email := "a@x.com", role := "client",
               first_name := "A", last_name := "B", gym_id := none } := by
  have h := C9_register_leaves_cache_login_warms sampleEnv 0 fpSample bhashSample
    IoOutcome.allOk sampleMeta sampleRegisterBody emptyState
  have h2 := C9_register_leaves_cache_login_warms sampleEnv 0 fpSample bhashSample
    IoOutcome.allOk sampleMeta sampleRegisterBody sampleState
  exact ⟨h.1 "u1",
    h2.2 bcompareSample "a@x.com" "pw" sampleUser (by decide) (by decide) (by decide)⟩

end FitSync
